import Mathlib

/-!
Shallow embedding of the Image-Hoster Flask application (`src/app.py`, with
`src/api/index.py` an equivalent copy of the same handlers).  Users, images,
the SQLite tables, the upload folder and the request handlers are modelled as
pure Lean functions over an explicit application state.  External library
collaborators (werkzeug password hashing and filename sanitising, PIL
thumbnailing, SQLite unique constraints) are modelled by small executable
functions faithful to their documented behaviour on the inputs the app feeds
them (ASCII filenames, posix path separator).
-/

deriving instance DecidableEq for Except

namespace ImageHoster

/-- File contents are modelled as byte lists. -/
abbrev Bytes := List Nat

/-- `app.config['ALLOWED_EXTENSIONS'] = {'png', 'jpg', 'jpeg', 'gif'}`. -/
def allowedExtensions : List String := ["png", "jpg", "jpeg", "gif"]

/-- Characters after the last dot of a name, `none` when it has no dot.
Models python `filename.rsplit('.', 1)[1]` guarded by `'.' in filename`. -/
def afterLastDot : List Char → Option (List Char)
  | [] => none
  | c :: rest =>
    match afterLastDot rest with
    | some t => some t
    | none => if c == '.' then some rest else none

/-- `allowed_file` from app.py: `'.' in filename and
filename.rsplit('.', 1)[1].lower() in app.config['ALLOWED_EXTENSIONS']`. -/
def allowed_file (filename : String) : Bool :=
  match afterLastDot filename.data with
  | none => false
  | some ext => allowedExtensions.contains (String.mk (ext.map Char.toLower))

/-- Characters stripped from both ends by werkzeug secure_filename. -/
def isStripChar (c : Char) : Bool := c == '.' || c == '_'

/-- Characters kept by werkzeug secure_filename (the regex `[^A-Za-z0-9_.-]`
removes everything else). -/
def keepChar (c : Char) : Bool :=
  c.isAlphanum || c == '_' || c == '.' || c == '-'

/-- Split on whitespace dropping empty words, as python `str.split()`. -/
def splitWordsAux (cs : List Char) (cur : List Char) : List (List Char) :=
  match cs with
  | [] => if cur.isEmpty then [] else [cur.reverse]
  | c :: rest =>
    if c.isWhitespace then
      if cur.isEmpty then splitWordsAux rest []
      else cur.reverse :: splitWordsAux rest []
    else splitWordsAux rest (c :: cur)

/-- Entry point of the word splitter. -/
def splitWords (cs : List Char) : List (List Char) := splitWordsAux cs []

/-- Join words with underscores, as python `"_".join(words)`. -/
def joinUnderscore : List (List Char) → List Char
  | [] => []
  | [w] => w
  | w :: ws => w ++ '_' :: joinUnderscore ws

/-- Models `werkzeug.utils.secure_filename` on ASCII input under posix
(`os.sep = '/'`, `os.path.altsep = None`): replace the path separator by a
space, split on whitespace and join with underscores, drop every character
outside `[A-Za-z0-9_.-]`, then strip `.` and `_` from both ends. -/
def secure_filename (filename : String) : String :=
  let spaced := filename.data.map (fun c => if c == '/' then ' ' else c)
  let joined := joinUnderscore (splitWords spaced)
  let kept := joined.filter keepChar
  let stripped := ((kept.dropWhile isStripChar).reverse.dropWhile isStripChar).reverse
  String.mk stripped

/-- Row of the `user` table.  `password_hash` is stored, never the plaintext. -/
structure User where
  id : Nat
  username : String
  password_hash : String
deriving DecidableEq

/-- Row of the `image_model` table.  `thumbnail` and `custom_slug` are
nullable columns, `upload_date` defaults to the creation time. -/
structure ImageModel where
  id : Nat
  filename : String
  thumbnail : Option String
  custom_slug : Option String
  upload_date : Nat
  user_id : Nat
deriving DecidableEq

/-- The whole application state: the two tables, the upload folder (an
association list from filename to bytes, newest write first), the next
autoincrement ids, and the flask-login session (`none` = anonymous). -/
structure AppState where
  users : List User
  images : List ImageModel
  files : List (String × Bytes)
  nextUserId : Nat
  nextImageId : Nat
  session : Option Nat
deriving DecidableEq

/-- Models `werkzeug.security.generate_password_hash`: a salted one-way hash.
For the purposes of this development it is any injective tagging function. -/
def generate_password_hash (password : String) : String :=
  "pbkdf2-sha256$" ++ password

/-- Models `werkzeug.security.check_password_hash`: true exactly when the
submitted password is the one the stored hash was generated from. -/
def check_password_hash (hash password : String) : Bool :=
  hash == generate_password_hash password

/-- A uniqueness violation raised by the storage layer at insert time. -/
inductive StorageError where
  | uniqueViolation (column : String)
deriving DecidableEq

/-- Insert into the `user` table; SQLite raises on a duplicate `username`. -/
def insertUser (s : AppState) (u : User) : Except StorageError AppState :=
  if s.users.any (fun v => v.username == u.username) then
    .error (.uniqueViolation "user.username")
  else
    .ok { s with users := s.users ++ [u] }

/-- Whether inserting a row with this `custom_slug` violates the unique
constraint.  SQL `UNIQUE` admits any number of NULLs, but two equal non-NULL
values (the empty string included) conflict. -/
def slugConflict (images : List ImageModel) (slug : Option String) : Bool :=
  match slug with
  | none => false
  | some sl => images.any (fun i => i.custom_slug == some sl)

/-- Insert into the `image_model` table; SQLite raises on a duplicate
non-NULL `custom_slug`. -/
def insertImage (s : AppState) (img : ImageModel) : Except StorageError AppState :=
  if slugConflict s.images img.custom_slug then
    .error (.uniqueViolation "image_model.custom_slug")
  else
    .ok { s with images := s.images ++ [img] }

/-- The observable HTTP response of a handler. -/
inductive Response where
  | redirect (location : String)
  | render (template : String)
  | sendFile (content : Bytes)
  | notFound
deriving DecidableEq

/-- A response together with the messages flashed during the request. -/
structure HttpResult where
  response : Response
  flashes : List String
deriving DecidableEq

/-- Write a file into the upload folder; `file.save` overwrites silently
(the newest entry shadows older ones with the same name). -/
def fileSave (files : List (String × Bytes)) (name : String) (content : Bytes) :
    List (String × Bytes) :=
  (name, content) :: files

/-- Read a file from the upload folder by exact name. -/
def lookupFile (files : List (String × Bytes)) (name : String) : Option Bytes :=
  (files.find? (fun p => p.1 == name)).map (fun p => p.2)

/-- Abstract model of the bytes PIL writes for the bounded 128x128 copy
of an original.  Its only relevant property is being a function of the
original content. -/
def thumbnailBytes (content : Bytes) : Bytes := 0 :: content

/-- Models `create_thumbnail` from app.py: open the stored original, produce
the derivative, save it under the thumbnail name.  Any decode or processing
failure (the `succeeds` flag models whether PIL raises) is caught inside the
function, which then writes nothing; it never propagates an exception. -/
def create_thumbnail (files : List (String × Bytes)) (imageName thumbName : String)
    (succeeds : Bool) : List (String × Bytes) :=
  if succeeds then
    match lookupFile files imageName with
    | some content => fileSave files thumbName (thumbnailBytes content)
    | none => files
  else
    files

/-- `POST /register` from app.py.  An uncaught storage exception is an
`Except.error`; in the sequential model the pre-check on the username makes
the insert safe. -/
def register (s : AppState) (username password : String) :
    Except StorageError (HttpResult × AppState) :=
  if (s.users.find? (fun u => u.username == username)).isSome then
    .ok ({ response := .redirect "/register",
           flashes := ["Username already exists!"] }, s)
  else
    let newUser : User :=
      { id := s.nextUserId, username := username,
        password_hash := generate_password_hash password }
    match insertUser { s with nextUserId := s.nextUserId + 1 } newUser with
    | .error e => .error e
    | .ok s1 =>
      .ok ({ response := .redirect "/login",
             flashes := ["Registration successful! Please login."] }, s1)

/-- `POST /login` from app.py: look up the user by username; on a hash match
call `login_user` (set the session) and redirect to the listing, otherwise
flash invalid credentials and redirect back to the form. -/
def login (s : AppState) (username password : String) : HttpResult × AppState :=
  match s.users.find? (fun u => u.username == username) with
  | some user =>
    if check_password_hash user.password_hash password then
      ({ response := .redirect "/", flashes := [] },
       { s with session := some user.id })
    else
      ({ response := .redirect "/login",
         flashes := ["Invalid username or password"] }, s)
  | none =>
    ({ response := .redirect "/login",
       flashes := ["Invalid username or password"] }, s)

/-- `GET /logout` from app.py, including the `login_required` gate. -/
def logout (s : AppState) : HttpResult × AppState :=
  match s.session with
  | none => ({ response := .redirect "/login", flashes := [] }, s)
  | some _ => ({ response := .redirect "/", flashes := [] },
               { s with session := none })

/-- One `POST /upload` request: whether the multipart body has an `image`
part, the submitted filename and bytes, the raw `custom_slug` form field
(`none` when the field is absent, `some ""` when present but empty), whether
PIL can process the bytes, and the current `datetime.utcnow` tick. -/
structure UploadRequest where
  hasFilePart : Bool
  filename : String
  content : Bytes
  custom_slug_field : Option String
  thumbnailSucceeds : Bool
  now : Nat
deriving DecidableEq

/-- `POST /upload` from app.py, including the `login_required` gate: validate
the file part and extension, sanitise the name, save the original, run the
best-effort thumbnailer, pre-check a truthy custom slug against the table,
then insert the record and redirect to its detail page.  Python truthiness
makes both a missing and an empty slug field skip the pre-check, and the
record always stores the `thumb_` name and the raw slug field value. -/
def upload (s : AppState) (req : UploadRequest) :
    Except StorageError (HttpResult × AppState) :=
  match s.session with
  | none => .ok ({ response := .redirect "/login", flashes := [] }, s)
  | some uid =>
    if !req.hasFilePart then
      .ok ({ response := .redirect "/upload", flashes := ["No file part"] }, s)
    else if req.filename == "" then
      .ok ({ response := .redirect "/upload", flashes := ["No selected file"] }, s)
    else if allowed_file req.filename then
      let filename := secure_filename req.filename
      let files1 := fileSave s.files filename req.content
      let thumbnail_filename := "thumb_" ++ filename
      let files2 := create_thumbnail files1 filename thumbnail_filename
        req.thumbnailSucceeds
      let s1 := { s with files := files2 }
      let custom_slug := req.custom_slug_field
      let slugTruthy : Bool :=
        match custom_slug with
        | some sl => sl != ""
        | none => false
      if slugTruthy && s1.images.any (fun i => i.custom_slug == custom_slug) then
        .ok ({ response := .redirect "/upload",
               flashes := ["Custom link already in use. Please choose another."] },
             s1)
      else
        let new_image : ImageModel :=
          { id := s1.nextImageId, filename := filename,
            thumbnail := some thumbnail_filename,
            custom_slug := custom_slug,
            upload_date := req.now, user_id := uid }
        match insertImage { s1 with nextImageId := s1.nextImageId + 1 } new_image with
        | .error e => .error e
        | .ok s2 =>
          .ok ({ response := .redirect ("/image/" ++ toString new_image.id),
                 flashes := ["Image uploaded successfully!"] }, s2)
    else
      .ok ({ response := .render "upload.html", flashes := [] }, s)

/-- Ordering used by `GET /`: `ORDER BY upload_date DESC`, later dates first. -/
def laterFirst (a b : ImageModel) : Prop := b.upload_date ≤ a.upload_date

instance : DecidableRel laterFirst := fun a b => Nat.decLe b.upload_date a.upload_date

instance : IsTotal ImageModel laterFirst := ⟨fun a b => Nat.le_total b.upload_date a.upload_date⟩

instance : IsTrans ImageModel laterFirst := ⟨fun _ _ _ h1 h2 => Nat.le_trans h2 h1⟩

/-- `GET /` from app.py: the image records sorted by descending upload date
(the listing the index template receives). -/
def index (s : AppState) : List ImageModel :=
  List.insertionSort laterFirst s.images

/-- Whether a listing is in strictly descending upload-date order. -/
def datesStrictlyDescending : List ImageModel → Bool
  | a :: b :: rest =>
    (b.upload_date < a.upload_date) && datesStrictlyDescending (b :: rest)
  | _ => true

/-- `GET /i/<custom_slug>` from app.py: resolve the slug to an image record
(404 when absent) and stream its original file from the upload folder. -/
def image_by_slug (s : AppState) (slug : String) : Response :=
  match s.images.find? (fun i => i.custom_slug == some slug) with
  | none => .notFound
  | some img =>
    match lookupFile s.files img.filename with
    | some content => .sendFile content
    | none => .notFound

/-- `GET /uploads/<filename>` from app.py: stream the raw stored file. -/
def uploaded_file (s : AppState) (filename : String) : Response :=
  match lookupFile s.files filename with
  | some content => .sendFile content
  | none => .notFound

/-- `GET /image/<int:image_id>` from app.py: the detail page, 404 when the
id is unknown. -/
def image_detail (s : AppState) (image_id : Nat) : Response :=
  match s.images.find? (fun i => i.id == image_id) with
  | some _ => .render "image_detail.html"
  | none => .notFound

/-- An empty store. -/
def st0 : AppState :=
  { users := [], images := [], files := [], nextUserId := 1, nextImageId := 1,
    session := none }

/-- A store with one registered user who is logged in. -/
def stLoggedIn : AppState :=
  { users := [{ id := 1, username := "alice",
                password_hash := generate_password_hash "pw" }],
    images := [], files := [], nextUserId := 2, nextImageId := 1,
    session := some 1 }

theorem thumb_name_ne (f : String) : ("thumb_" ++ f) ≠ f := by
  intro h
  have hlen := congrArg String.length h
  rw [String.length_append] at hlen
  have h6 : "thumb_".length = 6 := rfl
  rw [h6] at hlen
  omega

theorem lookupFile_save_same (files : List (String × Bytes)) (f : String) (c : Bytes) :
    lookupFile (fileSave files f c) f = some c := by
  simp [lookupFile, fileSave]

theorem lookupFile_save_other (files : List (String × Bytes)) (f g : String) (c : Bytes)
    (h : f ≠ g) : lookupFile (fileSave files f c) g = lookupFile files g := by
  simp [lookupFile, fileSave, List.find?_cons, h]

theorem create_thumbnail_after_save (files : List (String × Bytes)) (f tb : String)
    (c : Bytes) :
    create_thumbnail (fileSave files f c) f tb true =
      fileSave (fileSave files f c) tb (thumbnailBytes c) := by
  simp [create_thumbnail, lookupFile_save_same]

theorem upload_ok (s : AppState) (req : UploadRequest) (uid : Nat)
    (hs : s.session = some uid) (hfp : req.hasFilePart = true)
    (hfn : (req.filename == "") = false) (hal : allowed_file req.filename = true)
    (hsl : slugConflict s.images req.custom_slug_field = false) :
    upload s req = .ok
      ({ response := .redirect ("/image/" ++ toString s.nextImageId),
         flashes := ["Image uploaded successfully!"] },
       { s with
         images := s.images ++
           [{ id := s.nextImageId,
              filename := secure_filename req.filename,
              thumbnail := some ("thumb_" ++ secure_filename req.filename),
              custom_slug := req.custom_slug_field,
              upload_date := req.now,
              user_id := uid }],
         files := create_thumbnail
           (fileSave s.files (secure_filename req.filename) req.content)
           (secure_filename req.filename) ("thumb_" ++ secure_filename req.filename)
           req.thumbnailSucceeds,
         nextImageId := s.nextImageId + 1 }) := by
  unfold upload
  rw [hs]
  cases hc : req.custom_slug_field with
  | none =>
    rw [hc] at hsl
    simp [hfp, hfn, hal, insertImage, hsl, slugConflict]
  | some sl =>
    rw [hc] at hsl
    have hsl2 : ¬ ∃ x ∈ s.images, x.custom_slug = some sl := by
      simp only [slugConflict, List.any_eq_false] at hsl
      rintro ⟨x, hx, hxeq⟩
      exact absurd (by simpa using hxeq) (by simpa using hsl x hx)
    by_cases hemp : sl = ""
    · subst hemp
      simp [hfp, hfn, hal, insertImage, slugConflict, hsl2]
    · have hne : (sl != "") = true := by simpa using hemp
      simp [hfp, hfn, hal, insertImage, slugConflict, hsl2, hne]


theorem register_existing (s : AppState) (un pw : String)
    (h : (s.users.find? (fun u => u.username == un)).isSome = true) :
    register s un pw = .ok
      ({ response := .redirect "/register",
         flashes := ["Username already exists!"] }, s) := by
  unfold register
  simp [h]

theorem register_fresh (s : AppState) (un pw : String)
    (h : s.users.any (fun u => u.username == un) = false) :
    register s un pw = .ok
      ({ response := .redirect "/login",
         flashes := ["Registration successful! Please login."] },
       { s with
         users := s.users ++
           [{ id := s.nextUserId, username := un,
              password_hash := generate_password_hash pw }],
         nextUserId := s.nextUserId + 1 }) := by
  have hf : s.users.find? (fun u => u.username == un) = none := by
    rw [List.find?_eq_none]
    intro a ha
    simpa using (List.any_eq_false.mp h) a ha
  unfold register
  simp [hf, insertUser, h]

theorem upload_slug_taken (s : AppState) (req : UploadRequest) (uid : Nat) (sl : String)
    (hs : s.session = some uid) (hfp : req.hasFilePart = true)
    (hfn : (req.filename == "") = false) (hal : allowed_file req.filename = true)
    (hslf : req.custom_slug_field = some sl) (hne : sl ≠ "")
    (htaken : s.images.any (fun i => i.custom_slug == some sl) = true) :
    upload s req = .ok
      ({ response := .redirect "/upload",
         flashes := ["Custom link already in use. Please choose another."] },
       { s with
         files := create_thumbnail
           (fileSave s.files (secure_filename req.filename) req.content)
           (secure_filename req.filename)
           ("thumb_" ++ secure_filename req.filename) req.thumbnailSucceeds }) := by
  unfold upload
  rw [hs]
  have htaken2 : ∃ x ∈ s.images, x.custom_slug = some sl := by simpa using htaken
  have hne2 : (sl != "") = true := by simpa using hne
  simp [hfp, hfn, hal, hslf, hne2, htaken2]

/-- Upload request whose bytes PIL cannot decode (thumbnailing fails). -/
def reqCorrupt : UploadRequest :=
  { hasFilePart := true, filename := "pic.png", content := [9, 9],
    custom_slug_field := none, thumbnailSucceeds := false, now := 3 }

/-- Upload request with the custom slug form field present but empty. -/
def reqEmptySlug (n : Nat) : UploadRequest :=
  { hasFilePart := true, filename := "pic.png", content := [n],
    custom_slug_field := some "", thumbnailSucceeds := true, now := n }

/-- Upload request with a disallowed extension. -/
def reqExe : UploadRequest :=
  { hasFilePart := true, filename := "virus.exe", content := [1],
    custom_slug_field := none, thumbnailSucceeds := true, now := 3 }

/-- Upload request whose filename has no extension at all. -/
def reqNoExt : UploadRequest :=
  { hasFilePart := true, filename := "README", content := [1],
    custom_slug_field := none, thumbnailSucceeds := true, now := 3 }

/-- C1: counterexample.  At a concrete authenticated upload whose thumbnail
generation fails, the upload succeeds but the created record's thumbnail
field is `some "thumb_pic.png"`, not absent/null as claimed. -/
theorem C1_counter_thumbnail_set_on_failure :
    (upload stLoggedIn reqCorrupt).toOption.map
      (fun p => (p.1.flashes, p.2.images.map ImageModel.thumbnail)) =
      some (["Image uploaded successfully!"], [some "thumb_pic.png"]) := by
  decide

/-- C1 (amended): for every POST /upload by an authenticated user with a
valid file and a non-conflicting slug field, if thumbnail generation raises
a decode/processing error the upload still succeeds, but the created record's
thumbnail field is set to the `thumb_`-prefixed sanitized filename — it is
never left absent — and no thumbnail file is written to storage. -/
theorem C1_thumbnail_failure_upload_succeeds (s : AppState) (req : UploadRequest)
    (uid : Nat) (hs : s.session = some uid) (hfp : req.hasFilePart = true)
    (hfn : (req.filename == "") = false) (hal : allowed_file req.filename = true)
    (hth : req.thumbnailSucceeds = false)
    (hsl : slugConflict s.images req.custom_slug_field = false) :
    upload s req = .ok
      ({ response := .redirect ("/image/" ++ toString s.nextImageId),
         flashes := ["Image uploaded successfully!"] },
       { s with
         images := s.images ++
           [{ id := s.nextImageId, filename := secure_filename req.filename,
              thumbnail := some ("thumb_" ++ secure_filename req.filename),
              custom_slug := req.custom_slug_field,
              upload_date := req.now, user_id := uid }],
         files := fileSave s.files (secure_filename req.filename) req.content,
         nextImageId := s.nextImageId + 1 }) := by
  have h := upload_ok s req uid hs hfp hfn hal hsl
  rw [hth] at h
  simpa [create_thumbnail] using h

/-- Witness for C1: the amended theorem at the concrete corrupt upload. -/
theorem C1_thumbnail_failure_upload_succeeds_witness :
    upload stLoggedIn reqCorrupt = .ok
      ({ response := .redirect ("/image/" ++ toString stLoggedIn.nextImageId),
         flashes := ["Image uploaded successfully!"] },
       { stLoggedIn with
         images := stLoggedIn.images ++
           [{ id := stLoggedIn.nextImageId,
              filename := secure_filename reqCorrupt.filename,
              thumbnail := some ("thumb_" ++ secure_filename reqCorrupt.filename),
              custom_slug := reqCorrupt.custom_slug_field,
              upload_date := reqCorrupt.now, user_id := 1 }],
         files := fileSave stLoggedIn.files (secure_filename reqCorrupt.filename)
           reqCorrupt.content,
         nextImageId := stLoggedIn.nextImageId + 1 }) :=
  C1_thumbnail_failure_upload_succeeds stLoggedIn reqCorrupt 1
    (by decide) (by decide) (by decide) (by decide) (by decide) (by decide)

/-- C2: counterexample.  Two authenticated uploads that both leave the slug
form field empty produce a uniqueness conflict that was not pre-checked; the
second request surfaces the raw storage exception instead of a validation
message. -/
theorem C2_counter_raw_conflict_surfaces :
    (upload stLoggedIn (reqEmptySlug 1)).bind (fun p => upload p.2 (reqEmptySlug 2)) =
      Except.error (StorageError.uniqueViolation "image_model.custom_slug") := by
  decide

/-- C2 (amended): the conflicts the handlers pre-check — an existing username
on POST /register and a non-empty already-taken slug on POST /upload — are
converted into user-visible flash messages; but a uniqueness violation that
reaches the insert itself is not caught and surfaces as a raw storage error. -/
theorem C2_prechecked_conflicts_become_messages :
    (∀ (s : AppState) (un pw : String),
      (s.users.find? (fun u => u.username == un)).isSome = true →
        register s un pw = .ok
          ({ response := .redirect "/register",
             flashes := ["Username already exists!"] }, s)) ∧
    (∀ (s : AppState) (req : UploadRequest) (uid : Nat) (sl : String),
      s.session = some uid → req.hasFilePart = true →
      (req.filename == "") = false → allowed_file req.filename = true →
      req.custom_slug_field = some sl → sl ≠ "" →
      s.images.any (fun i => i.custom_slug == some sl) = true →
        upload s req = .ok
          ({ response := .redirect "/upload",
             flashes := ["Custom link already in use. Please choose another."] },
           { s with
             files := create_thumbnail
               (fileSave s.files (secure_filename req.filename) req.content)
               (secure_filename req.filename)
               ("thumb_" ++ secure_filename req.filename) req.thumbnailSucceeds })) :=
  ⟨fun s un pw h => register_existing s un pw h,
   fun s req uid sl hs hfp hfn hal hslf hne htaken =>
     upload_slug_taken s req uid sl hs hfp hfn hal hslf hne htaken⟩

/-- Witness for C2: registering an already-registered username is answered
with the flash message, per the amended theorem at a concrete state. -/
theorem C2_prechecked_conflicts_become_messages_witness :
    register stLoggedIn "alice" "other" = .ok
      ({ response := .redirect "/register",
         flashes := ["Username already exists!"] }, stLoggedIn) :=
  C2_prechecked_conflicts_become_messages.1 stLoggedIn "alice" "other" (by decide)

/-- C3: counterexample.  A POST /upload with the slug field present but empty
creates a record whose custom_slug is `some ""` — it does claim the empty
string — and a second identical upload fails rather than succeeding. -/
theorem C3_counter_empty_slug_claimed :
    (upload stLoggedIn (reqEmptySlug 1)).toOption.map
        (fun p => p.2.images.map ImageModel.custom_slug) = some [some ""] ∧
    ((upload stLoggedIn (reqEmptySlug 1)).bind
        (fun p => upload p.2 (reqEmptySlug 2))).toOption = none := by
  decide

/-- C3 (amended): an empty custom slug field skips the duplicate-slug
pre-check, but the created record stores the empty string as its custom_slug;
the first such upload succeeds only while no image holds the empty-string
slug, and a second one hits the storage uniqueness constraint as a raw
conflict error. -/
theorem C3_empty_slug_stores_empty_string (s : AppState) (req : UploadRequest)
    (uid : Nat) (hs : s.session = some uid) (hfp : req.hasFilePart = true)
    (hfn : (req.filename == "") = false) (hal : allowed_file req.filename = true)
    (hslf : req.custom_slug_field = some "") :
    (s.images.any (fun i => i.custom_slug == some "") = false →
      upload s req = .ok
        ({ response := .redirect ("/image/" ++ toString s.nextImageId),
           flashes := ["Image uploaded successfully!"] },
         { s with
           images := s.images ++
             [{ id := s.nextImageId, filename := secure_filename req.filename,
                thumbnail := some ("thumb_" ++ secure_filename req.filename),
                custom_slug := some "",
                upload_date := req.now, user_id := uid }],
           files := create_thumbnail
             (fileSave s.files (secure_filename req.filename) req.content)
             (secure_filename req.filename)
             ("thumb_" ++ secure_filename req.filename) req.thumbnailSucceeds,
           nextImageId := s.nextImageId + 1 })) ∧
    (s.images.any (fun i => i.custom_slug == some "") = true →
      upload s req = .error (.uniqueViolation "image_model.custom_slug")) := by
  constructor
  · intro hfree
    have hsl : slugConflict s.images req.custom_slug_field = false := by
      rw [hslf]
      simpa [slugConflict] using hfree
    have h := upload_ok s req uid hs hfp hfn hal hsl
    rw [hslf] at h
    exact h
  · intro htaken
    have htaken2 : ∃ x ∈ s.images, x.custom_slug = some "" := by simpa using htaken
    unfold upload
    rw [hs]
    simp [hfp, hfn, hal, hslf, insertImage, slugConflict, htaken2]

/-- Witness for C3: the amended theorem at a concrete empty-slug upload. -/
theorem C3_empty_slug_stores_empty_string_witness :
    upload stLoggedIn (reqEmptySlug 1) = .ok
      ({ response := .redirect ("/image/" ++ toString stLoggedIn.nextImageId),
         flashes := ["Image uploaded successfully!"] },
       { stLoggedIn with
         images := stLoggedIn.images ++
           [{ id := stLoggedIn.nextImageId,
              filename := secure_filename (reqEmptySlug 1).filename,
              thumbnail := some ("thumb_" ++ secure_filename (reqEmptySlug 1).filename),
              custom_slug := some "",
              upload_date := (reqEmptySlug 1).now, user_id := 1 }],
         files := create_thumbnail
           (fileSave stLoggedIn.files (secure_filename (reqEmptySlug 1).filename)
             (reqEmptySlug 1).content)
           (secure_filename (reqEmptySlug 1).filename)
           ("thumb_" ++ secure_filename (reqEmptySlug 1).filename)
           (reqEmptySlug 1).thumbnailSucceeds,
         nextImageId := stLoggedIn.nextImageId + 1 }) :=
  (C3_empty_slug_stores_empty_string stLoggedIn (reqEmptySlug 1) 1
    (by decide) (by decide) (by decide) (by decide) (by decide)).1 (by decide)

/-- C5: counterexample.  A concrete authenticated upload of `virus.exe` is
rejected — the form is re-rendered and no record is created — but with an
empty flash list: no user-visible message is shown, contrary to the claim. -/
theorem C5_counter_no_message_flashed :
    upload stLoggedIn reqExe =
      .ok ({ response := .render "upload.html", flashes := [] }, stLoggedIn) := by
  decide

/-- C5 (amended): for every POST /upload whose filename has no extension or
an extension outside the allow-list (case-insensitively), no Image record is
created and the state is unchanged — the upload form is simply re-rendered —
but no user-visible message is flashed. -/
theorem C5_bad_extension_rejected_silently (s : AppState) (req : UploadRequest)
    (uid : Nat) (hs : s.session = some uid) (hfp : req.hasFilePart = true)
    (hfn : (req.filename == "") = false) (hal : allowed_file req.filename = false) :
    upload s req = .ok ({ response := .render "upload.html", flashes := [] }, s) := by
  unfold upload
  rw [hs]
  simp [hfp, hfn, hal]

/-- Witness for C5: the amended theorem at a concrete extensionless upload. -/
theorem C5_bad_extension_rejected_silently_witness :
    upload stLoggedIn reqNoExt =
      .ok ({ response := .render "upload.html", flashes := [] }, stLoggedIn) :=
  C5_bad_extension_rejected_silently stLoggedIn reqNoExt 1
    (by decide) (by decide) (by decide) (by decide)


/-- A logged-in state in which an image already holds the slug `mypic`. -/
def stTaken : AppState :=
  { users := [{ id := 1, username := "alice",
                password_hash := generate_password_hash "pw" }],
    images := [{ id := 1, filename := "old.png",
                 thumbnail := some "thumb_old.png", custom_slug := some "mypic",
                 upload_date := 1, user_id := 1 }],
    files := [("old.png", [7])], nextUserId := 2, nextImageId := 2,
    session := some 1 }

/-- Upload request that asks for the already-taken slug `mypic`. -/
def reqTakenSlug : UploadRequest :=
  { hasFilePart := true, filename := "new.png", content := [2],
    custom_slug_field := some "mypic", thumbnailSucceeds := true, now := 4 }

/-- C4: (confirmed) for every authenticated POST /upload supplying a non-empty
custom slug already claimed by an existing Image, the request is rejected with
a user-visible message and a redirect back to the form; the file write is not
retried (the state keeps exactly the one original write plus the best-effort
thumbnail), no Image record is created, and retrying the same upload with a
different unused slug succeeds and creates the record. -/
theorem C4_taken_slug_rejected_retry_succeeds (s : AppState) (req : UploadRequest)
    (uid : Nat) (sl : String)
    (hs : s.session = some uid) (hfp : req.hasFilePart = true)
    (hfn : (req.filename == "") = false) (hal : allowed_file req.filename = true)
    (hslf : req.custom_slug_field = some sl) (hne : sl ≠ "")
    (htaken : s.images.any (fun i => i.custom_slug == some sl) = true) :
    upload s req = .ok
      ({ response := .redirect "/upload",
         flashes := ["Custom link already in use. Please choose another."] },
       { s with
         files := create_thumbnail
           (fileSave s.files (secure_filename req.filename) req.content)
           (secure_filename req.filename)
           ("thumb_" ++ secure_filename req.filename) req.thumbnailSucceeds }) ∧
    (∀ sl2 : String, sl2 ≠ "" →
      s.images.any (fun i => i.custom_slug == some sl2) = false →
      ∃ s2, upload
          { s with
            files := create_thumbnail
              (fileSave s.files (secure_filename req.filename) req.content)
              (secure_filename req.filename)
              ("thumb_" ++ secure_filename req.filename) req.thumbnailSucceeds }
          { req with custom_slug_field := some sl2 } = .ok
          ({ response := .redirect ("/image/" ++ toString s.nextImageId),
             flashes := ["Image uploaded successfully!"] }, s2) ∧
        s2.images = s.images ++
          [{ id := s.nextImageId, filename := secure_filename req.filename,
             thumbnail := some ("thumb_" ++ secure_filename req.filename),
             custom_slug := some sl2,
             upload_date := req.now, user_id := uid }]) := by
  constructor
  · exact upload_slug_taken s req uid sl hs hfp hfn hal hslf hne htaken
  · intro sl2 hne2 hfree2
    have h := upload_ok
      { s with
        files := create_thumbnail
          (fileSave s.files (secure_filename req.filename) req.content)
          (secure_filename req.filename)
          ("thumb_" ++ secure_filename req.filename) req.thumbnailSucceeds }
      { req with custom_slug_field := some sl2 } uid hs hfp hfn hal
      (by simpa [slugConflict] using hfree2)
    exact ⟨_, h, rfl⟩

/-- Witness for C4: a concrete taken-slug upload is rejected with the message
and a retry with a fresh slug creates the record. -/
theorem C4_taken_slug_rejected_retry_succeeds_witness :
    ∃ s2, upload
        { stTaken with
          files := create_thumbnail
            (fileSave stTaken.files (secure_filename reqTakenSlug.filename)
              reqTakenSlug.content)
            (secure_filename reqTakenSlug.filename)
            ("thumb_" ++ secure_filename reqTakenSlug.filename)
            reqTakenSlug.thumbnailSucceeds }
        { reqTakenSlug with custom_slug_field := some "fresh" } = .ok
        ({ response := .redirect ("/image/" ++ toString stTaken.nextImageId),
           flashes := ["Image uploaded successfully!"] }, s2) ∧
      s2.images = stTaken.images ++
        [{ id := stTaken.nextImageId,
           filename := secure_filename reqTakenSlug.filename,
           thumbnail := some ("thumb_" ++ secure_filename reqTakenSlug.filename),
           custom_slug := some "fresh",
           upload_date := reqTakenSlug.now, user_id := 1 }] :=
  (C4_taken_slug_rejected_retry_succeeds stTaken reqTakenSlug 1 "mypic"
    (by decide) (by decide) (by decide) (by decide) (by decide) (by decide)
    (by decide)).2 "fresh" (by decide) (by decide)

/-- C6: (confirmed) registering a fresh username succeeds, a second POST
/register with the same username fails with a visible "already exists"
message and a redirect back to the form, the state is unchanged by the second
attempt, and exactly one User record with that username persists. -/
theorem C6_register_twice_one_user (s : AppState) (un pw1 pw2 : String)
    (hfresh : s.users.any (fun u => u.username == un) = false) :
    ∃ s1,
      register s un pw1 = .ok
        ({ response := .redirect "/login",
           flashes := ["Registration successful! Please login."] }, s1) ∧
      register s1 un pw2 = .ok
        ({ response := .redirect "/register",
           flashes := ["Username already exists!"] }, s1) ∧
      (s1.users.filter (fun u => u.username == un)).length = 1 := by
  refine ⟨_, register_fresh s un pw1 hfresh, ?_, ?_⟩
  · apply register_existing
    rw [List.find?_isSome]
    refine ⟨{ id := s.nextUserId, username := un,
              password_hash := generate_password_hash pw1 }, ?_, by simp⟩
    simp
  · rw [List.filter_append]
    have hnil : s.users.filter (fun u => u.username == un) = [] := by
      rw [List.filter_eq_nil_iff]
      intro a ha
      simpa using (List.any_eq_false.mp hfresh) a ha
    simp [hnil]

/-- Witness for C6: the theorem at a concrete fresh registration. -/
theorem C6_register_twice_one_user_witness :
    ∃ s1,
      register st0 "bob" "pw1" = .ok
        ({ response := .redirect "/login",
           flashes := ["Registration successful! Please login."] }, s1) ∧
      register s1 "bob" "pw2" = .ok
        ({ response := .redirect "/register",
           flashes := ["Username already exists!"] }, s1) ∧
      (s1.users.filter (fun u => u.username == "bob")).length = 1 :=
  C6_register_twice_one_user st0 "bob" "pw1" "pw2" (by decide)

/-- C7: (confirmed) for every POST /login, the request redirects to the
listing — the success response — exactly when a user record with the
submitted username is found and the submitted password matches its stored
hash; on success the session is bound to that user's id, and otherwise the
state (in particular the session) is unchanged and "Invalid username or
password" is flashed. -/
theorem C7_login_session_iff (s : AppState) (un pw : String) :
    ((login s un pw).1.response = .redirect "/" ↔
      ∃ u, s.users.find? (fun v => v.username == un) = some u ∧
        check_password_hash u.password_hash pw = true) ∧
    (∀ u, s.users.find? (fun v => v.username == un) = some u →
      check_password_hash u.password_hash pw = true →
      (login s un pw).2.session = some u.id) ∧
    ((login s un pw).1.response ≠ .redirect "/" →
      (login s un pw).2 = s ∧
      (login s un pw).1.flashes = ["Invalid username or password"]) := by
  unfold login
  cases hfind : s.users.find? (fun v => v.username == un) with
  | none => simp
  | some u =>
    by_cases hchk : check_password_hash u.password_hash pw
    · simp [hchk]
    · simp [hchk]

/-- Witness for C7: logging in with the registered password binds the
session to the user's id, per the theorem at a concrete state. -/
theorem C7_login_session_iff_witness :
    (login stLoggedIn "alice" "pw").2.session = some 1 :=
  (C7_login_session_iff stLoggedIn "alice" "pw").2.1
    { id := 1, username := "alice", password_hash := generate_password_hash "pw" }
    (by decide) (by decide)


/-- Upload request used to reach a state with two equal upload dates. -/
def reqTie (n : Nat) : UploadRequest :=
  { hasFilePart := true, filename := "t" ++ toString n ++ ".png", content := [n],
    custom_slug_field := none, thumbnailSucceeds := true, now := 7 }

/-- A reachable state holding two images whose upload dates are equal
(two uploads within the same clock tick). -/
def stTie : AppState :=
  match (upload stLoggedIn (reqTie 1)).bind (fun p => upload p.2 (reqTie 2)) with
  | .ok p => p.2
  | .error _ => stLoggedIn

/-- C8: counterexample.  In the reachable state with two images sharing an
upload date, GET / lists both records but the listing is not in strictly
descending upload-date order. -/
theorem C8_counter_tied_dates_not_strict :
    (index stTie).map ImageModel.upload_date = [7, 7] ∧
    datesStrictlyDescending (index stTie) = false := by
  decide

/-- C8 (amended): for every state of the store, GET / lists exactly the Image
records (a permutation of the table) in non-increasing upload_date order —
newest first, with ties between equal upload dates possible. -/
theorem C8_listing_sorted_nonincreasing (s : AppState) :
    (index s).Perm s.images ∧
    List.Pairwise (fun a b => b.upload_date ≤ a.upload_date) (index s) := by
  constructor
  · exact List.perm_insertionSort laterFirst s.images
  · exact List.sorted_insertionSort laterFirst s.images

/-- C9: (confirmed) for every authenticated upload of a valid file with a
previously-unused non-empty custom slug, the upload succeeds and a GET
/i/<slug> on the resulting state resolves the slug to the created Image and
streams back exactly the uploaded bytes; and in every state, GET /i/<slug>
for a slug held by no Image returns 404. -/
theorem C9_slug_roundtrip (s : AppState) (req : UploadRequest) (uid : Nat)
    (sl : String)
    (hs : s.session = some uid) (hfp : req.hasFilePart = true)
    (hfn : (req.filename == "") = false) (hal : allowed_file req.filename = true)
    (hslf : req.custom_slug_field = some sl) (hfree :
      s.images.any (fun i => i.custom_slug == some sl) = false) :
    (∃ s2, upload s req = .ok
        ({ response := .redirect ("/image/" ++ toString s.nextImageId),
           flashes := ["Image uploaded successfully!"] }, s2) ∧
      image_by_slug s2 sl = .sendFile req.content) ∧
    (∀ (t : AppState) (sl2 : String),
      t.images.any (fun i => i.custom_slug == some sl2) = false →
      image_by_slug t sl2 = .notFound) := by
  constructor
  · have hsl : slugConflict s.images req.custom_slug_field = false := by
      rw [hslf]
      simpa [slugConflict] using hfree
    have h := upload_ok s req uid hs hfp hfn hal hsl
    rw [hslf] at h
    refine ⟨_, h, ?_⟩
    have hnone : s.images.find? (fun i => i.custom_slug == some sl) = none := by
      rw [List.find?_eq_none]
      intro a ha
      simpa using (List.any_eq_false.mp hfree) a ha
    have hlook : lookupFile (create_thumbnail
        (fileSave s.files (secure_filename req.filename) req.content)
        (secure_filename req.filename)
        ("thumb_" ++ secure_filename req.filename) req.thumbnailSucceeds)
        (secure_filename req.filename) = some req.content := by
      cases hts : req.thumbnailSucceeds with
      | true =>
        rw [create_thumbnail_after_save,
          lookupFile_save_other _ _ _ _ (thumb_name_ne (secure_filename req.filename)),
          lookupFile_save_same]
      | false =>
        simp only [create_thumbnail, Bool.false_eq_true, if_false]
        exact lookupFile_save_same _ _ _
    simp [image_by_slug, List.find?_append, hnone, hlook]
  · intro t sl2 hfree2
    have hnone : t.images.find? (fun i => i.custom_slug == some sl2) = none := by
      rw [List.find?_eq_none]
      intro a ha
      simpa using (List.any_eq_false.mp hfree2) a ha
    unfold image_by_slug
    rw [hnone]

/-- Upload request carrying a fresh custom slug, for the C9 witness. -/
def reqSlug : UploadRequest :=
  { hasFilePart := true, filename := "pic.png", content := [5, 6],
    custom_slug_field := some "mypic", thumbnailSucceeds := true, now := 3 }

/-- Witness for C9: uploading with the unused slug `mypic` and reading
back GET /i/mypic returns the uploaded bytes. -/
theorem C9_slug_roundtrip_witness :
    ∃ s2, upload stLoggedIn reqSlug = .ok
        ({ response := .redirect ("/image/" ++ toString stLoggedIn.nextImageId),
           flashes := ["Image uploaded successfully!"] }, s2) ∧
      image_by_slug s2 "mypic" = .sendFile reqSlug.content :=
  (C9_slug_roundtrip stLoggedIn reqSlug 1 "mypic"
    (by decide) (by decide) (by decide) (by decide) (by decide) (by decide)).1

/-- C10: (confirmed) two authenticated uploads whose sanitized filenames
coincide both succeed — the handler neither rejects nor renames on a
filename collision — two Image records exist afterwards, the first record's
filename now resolves (via the store and via GET /uploads/<filename>) to the
second upload's bytes, and the `thumb_`-prefixed thumbnail is likewise
overwritten in place. -/
theorem C10_filename_collision_overwrites (s : AppState) (r1 r2 : UploadRequest)
    (uid : Nat) (hs : s.session = some uid)
    (h1p : r1.hasFilePart = true) (h1n : (r1.filename == "") = false)
    (h1a : allowed_file r1.filename = true) (h1s : r1.custom_slug_field = none)
    (h2p : r2.hasFilePart = true) (h2n : (r2.filename == "") = false)
    (h2a : allowed_file r2.filename = true) (h2s : r2.custom_slug_field = none)
    (hcoll : secure_filename r2.filename = secure_filename r1.filename)
    (h2t : r2.thumbnailSucceeds = true) :
    ∃ rr1 s1 rr2 s2,
      upload s r1 = .ok (rr1, s1) ∧ upload s1 r2 = .ok (rr2, s2) ∧
      rr1.flashes = ["Image uploaded successfully!"] ∧
      rr2.flashes = ["Image uploaded successfully!"] ∧
      s2.images.length = s.images.length + 2 ∧
      (∃ img1 ∈ s2.images, img1.id = s.nextImageId ∧
        img1.filename = secure_filename r1.filename) ∧
      lookupFile s2.files (secure_filename r1.filename) = some r2.content ∧
      lookupFile s2.files ("thumb_" ++ secure_filename r1.filename) =
        some (thumbnailBytes r2.content) ∧
      uploaded_file s2 (secure_filename r1.filename) = .sendFile r2.content := by
  have hsl1 : slugConflict s.images r1.custom_slug_field = false := by
    rw [h1s]
    rfl
  have h1 := upload_ok s r1 uid hs h1p h1n h1a hsl1
  have h2 := upload_ok
    { s with
      images := s.images ++
        [{ id := s.nextImageId, filename := secure_filename r1.filename,
           thumbnail := some ("thumb_" ++ secure_filename r1.filename),
           custom_slug := r1.custom_slug_field,
           upload_date := r1.now, user_id := uid }],
      files := create_thumbnail
        (fileSave s.files (secure_filename r1.filename) r1.content)
        (secure_filename r1.filename)
        ("thumb_" ++ secure_filename r1.filename) r1.thumbnailSucceeds,
      nextImageId := s.nextImageId + 1 }
    r2 uid hs h2p h2n h2a (by rw [h2s]; rfl)
  rw [h2t, hcoll] at h2
  rw [create_thumbnail_after_save] at h2
  refine ⟨_, _, _, _, h1, h2, rfl, rfl, by simp, ?_, ?_, ?_, ?_⟩
  · refine ⟨{ id := s.nextImageId, filename := secure_filename r1.filename,
              thumbnail := some ("thumb_" ++ secure_filename r1.filename),
              custom_slug := r1.custom_slug_field,
              upload_date := r1.now, user_id := uid }, by simp, rfl, rfl⟩
  · rw [lookupFile_save_other _ _ _ _ (thumb_name_ne (secure_filename r1.filename)),
      lookupFile_save_same]
  · rw [lookupFile_save_same]
  · unfold uploaded_file
    rw [lookupFile_save_other _ _ _ _ (thumb_name_ne (secure_filename r1.filename)),
      lookupFile_save_same]

/-- Second upload colliding with `reqSlug`'s stored filename `pic.png`. -/
def reqSameName : UploadRequest :=
  { hasFilePart := true, filename := "pic.png", content := [8],
    custom_slug_field := none, thumbnailSucceeds := true, now := 9 }

/-- Witness for C10: two concrete uploads named `pic.png` both succeed and
the second overwrites the stored file and thumbnail. -/
theorem C10_filename_collision_overwrites_witness :
    ∃ rr1 s1 rr2 s2,
      upload stLoggedIn reqCorrupt = .ok (rr1, s1) ∧
      upload s1 reqSameName = .ok (rr2, s2) ∧
      rr1.flashes = ["Image uploaded successfully!"] ∧
      rr2.flashes = ["Image uploaded successfully!"] ∧
      s2.images.length = stLoggedIn.images.length + 2 ∧
      (∃ img1 ∈ s2.images, img1.id = stLoggedIn.nextImageId ∧
        img1.filename = secure_filename reqCorrupt.filename) ∧
      lookupFile s2.files (secure_filename reqCorrupt.filename) =
        some reqSameName.content ∧
      lookupFile s2.files ("thumb_" ++ secure_filename reqCorrupt.filename) =
        some (thumbnailBytes reqSameName.content) ∧
      uploaded_file s2 (secure_filename reqCorrupt.filename) =
        .sendFile reqSameName.content :=
  C10_filename_collision_overwrites stLoggedIn reqCorrupt reqSameName 1
    (by decide) (by decide) (by decide) (by decide) (by decide) (by decide)
    (by decide) (by decide) (by decide) (by decide) (by decide)


end ImageHoster
